import Mathlib

/-!
Shallow embedding of `src/core/src/providers/provider.rs` of the `dust` repository:
the `ProviderID` enumeration with its `Display`/`FromStr`/serde string forms, the
`ModelError` classified-error type with its retry options and `Display` rendering,
and the `with_retryable_back_off` retry driver.

Machine integers (`u32`, `usize`) and `std::time::Duration` are modelled as `Nat`
(a duration is a natural number of time units); the claims never exercise overflow.
Fallible Rust results become `Except`; an `anyhow::Error` is either an error
downcastable to `ModelError` or an opaque error carrying its rendered message.
-/

deriving instance DecidableEq for Except

/-- Embeds `enum ProviderID` (provider.rs lines 22-35). -/
inductive ProviderID where
  | OpenAI
  | Cohere
  | AI21
  | AzureOpenAI
  | Anthropic
  | Mistral
  | GoogleAiStudio
deriving DecidableEq, Repr

/-- Embeds `impl fmt::Display for ProviderID` (provider.rs lines 37-49). -/
def ProviderID.display : ProviderID → String
  | .OpenAI => "openai"
  | .Cohere => "cohere"
  | .AI21 => "ai21"
  | .AzureOpenAI => "azure_openai"
  | .Anthropic => "anthropic"
  | .Mistral => "mistral"
  | .GoogleAiStudio => "google_ai_studio"

/-- Embeds `crate::utils::ParseError` as far as the claims need it: an error value
carrying a message, built by `ParseError::with_message`. -/
structure ParseError where
  message : String
deriving DecidableEq, Repr

/-- Embeds `impl FromStr for ProviderID` (provider.rs lines 51-67): a sequential
exact match on the input string; any other string yields the parse error with the
message written literally in the source. -/
def ProviderID.fromStr (s : String) : Except ParseError ProviderID :=
  if s = "openai" then .ok .OpenAI
  else if s = "cohere" then .ok .Cohere
  else if s = "ai21" then .ok .AI21
  else if s = "azure_openai" then .ok .AzureOpenAI
  else if s = "anthropic" then .ok .Anthropic
  else if s = "mistral" then .ok .Mistral
  else if s = "google_ai_studio" then .ok .GoogleAiStudio
  else .error ⟨"Unknown provider ID (possible values: openai, cohere, ai21, azure_openai, mistral)"⟩

/-- The seven canonical identifier strings accepted by `ProviderID::from_str`. -/
def canonicalProviderStrings : List String :=
  ["openai", "cohere", "ai21", "azure_openai", "anthropic", "mistral", "google_ai_studio"]

/-- Modelled from the spec: the serde `Serialize` implementation for `ProviderID` is
derive-generated code not present in the snippet. Per the attributes on the enum
(provider.rs lines 22-35) — `rename_all` to lowercase, with explicit renames for
`AzureOpenAI` and `GoogleAiStudio` — each variant serializes to the string below. -/
def ProviderID.serdeName : ProviderID → String
  | .OpenAI => "openai"
  | .Cohere => "cohere"
  | .AI21 => "ai21"
  | .AzureOpenAI => "azure_openai"
  | .Anthropic => "anthropic"
  | .Mistral => "mistral"
  | .GoogleAiStudio => "google_ai_studio"

/-- Modelled from the spec: the serde `Deserialize` implementation for `ProviderID`
is derive-generated code not present in the snippet. It accepts exactly the seven
serialized variant names, mapping each to its variant, and rejects any other
string with an unknown-variant error. -/
def ProviderID.serdeDeserialize (s : String) : Except String ProviderID :=
  if s = "openai" then .ok .OpenAI
  else if s = "cohere" then .ok .Cohere
  else if s = "ai21" then .ok .AI21
  else if s = "azure_openai" then .ok .AzureOpenAI
  else if s = "anthropic" then .ok .Anthropic
  else if s = "mistral" then .ok .Mistral
  else if s = "google_ai_studio" then .ok .GoogleAiStudio
  else .error ("unknown variant: " ++ s)

/-- Embeds `ModelErrorRetryOptions` (provider.rs lines 70-74): `sleep` is the base
delay (a `Duration`, modelled as `Nat`), `factor` the `u32` multiplier, `retries`
the `usize` retry budget. -/
structure ModelErrorRetryOptions where
  sleep : Nat
  factor : Nat
  retries : Nat
deriving DecidableEq, Repr

/-- Embeds `ModelError` (provider.rs lines 76-81). -/
structure ModelError where
  message : String
  retryable : Option ModelErrorRetryOptions
  request_id : Option String
deriving DecidableEq, Repr

/-- Embeds `impl Display for ModelError` (provider.rs lines 83-92). -/
def ModelError.display (e : ModelError) : String :=
  "[model_error(retryable=" ++ (if e.retryable.isSome then "true" else "false") ++ ")] " ++ e.message

/-- An `anyhow::Error`: either an error downcastable to `ModelError`, or an opaque
error carrying its rendered message (`anyhow!` constructions produce the `.msg`
form, which does not downcast to `ModelError`). -/
inductive AnyhowError where
  | model (e : ModelError)
  | msg (s : String)
deriving DecidableEq, Repr

/-- The message of the exhaustion error built by
`anyhow!("Too many retries ({}): {}", retry.retries, err)`. -/
def exhaustMsg (r : Nat) (e : ModelError) : String :=
  "Too many retries (" ++ toString r ++ "): " ++ e.display

/-- One observable side effect of the retry loop: a `log_retry(message, delay, attempts)`
invocation, or a `tokio::time::sleep(delay)` suspension. -/
inductive RetryEvent where
  | log (message : String) (delay : Nat) (attempts : Nat)
  | sleep (delay : Nat)
deriving DecidableEq, Repr

/-- The outcome of a run of the retry driver: the returned `Result`, the ordered
trace of observable events, the terminal `tracing::error!` diagnostic (request id
and message) when one was emitted, and how many times the operation was invoked. -/
structure RunResult (O : Type) where
  result : Except AnyhowError O
  events : List RetryEvent
  diag : Option (String × String)
  calls : Nat
deriving DecidableEq, Repr

/-- Embeds the loop of `with_retryable_back_off` (provider.rs lines 96-144). The
repeatedly invoked operation is modelled as the stream `f` of the outcomes its
successive invocations produce; each iteration consumes the head and recurses on
the tail, mirroring the mutable `attempts` and `sleep` locals as parameters.
`log_retry` calls become `.log` events and sleeps become `.sleep` events, in
program order. The Rust loop is unbounded; `fuel` bounds how many iterations are
modelled, `none` meaning the loop was still running after `fuel` iterations. -/
def withRetryableBackOffAux {O : Type} :
    Nat → (Nat → Except AnyhowError O) → Nat → Option Nat → Option (RunResult O)
  | 0, _, _, _ => none
  | fuel + 1, f, attempts, sl =>
    match f 0 with
    | .ok out => some ⟨.ok out, [], none, 1⟩
    | .error e =>
      match e with
      | .model err =>
        match err.retryable with
        | some retry =>
          let attempts' := attempts + 1
          let sleep' :=
            match sl with
            | none => retry.sleep
            | some b => b * retry.factor
          if attempts' > retry.retries then
            some ⟨.error (.msg (exhaustMsg retry.retries err)),
                  [.log err.message sleep' attempts', .sleep sleep'],
                  err.request_id.map (fun id => (id, err.message)),
                  1⟩
          else
            match withRetryableBackOffAux fuel (fun i => f (i + 1)) attempts' (some sleep') with
            | none => none
            | some r =>
              some ⟨r.result, .log err.message sleep' attempts' :: .sleep sleep' :: r.events,
                    r.diag, r.calls + 1⟩
        | none => some ⟨.error (.msg err.display), [], none, 1⟩
      | .msg s => some ⟨.error (.msg s), [], none, 1⟩

/-- Embeds `with_retryable_back_off`: run the loop from `attempts = 0`,
`sleep = None`. -/
def withRetryableBackOff {O : Type} (f : Nat → Except AnyhowError O) (fuel : Nat) :
    Option (RunResult O) :=
  withRetryableBackOffAux fuel f 0 none

/-- The delay logged and slept at the k-th failure (0-based) when every invocation
fails retryably with options `opts k`: seeded by the first failure's base delay,
then multiplied by each subsequent failure's factor. -/
def delayAt (opts : Nat → ModelErrorRetryOptions) : Nat → Nat
  | 0 => (opts 0).sleep
  | k + 1 => delayAt opts k * (opts (k + 1)).factor

/-- The delay at the k-th failure from an intermediate state whose previous
computed delay is `s`: the current failure's factor times the previous delay. -/
def delayFrom (opts : Nat → ModelErrorRetryOptions) (s : Nat) : Nat → Nat
  | 0 => s * (opts 0).factor
  | k + 1 => delayFrom opts s k * (opts (k + 1)).factor

/-- `s` contains `t` as a contiguous substring. -/
def containsSubstr (s t : String) : Prop :=
  ∃ a b : String, s = a ++ t ++ b

lemma range_succ_flatMap {β : Type} (n : Nat) (g : Nat → List β) :
    (List.range (n + 1)).flatMap g = g 0 ++ (List.range n).flatMap (fun k => g (k + 1)) := by
  rw [List.range_succ_eq_map, List.flatMap_cons, List.flatMap_map]

lemma delayFrom_shift (opts : Nat → ModelErrorRetryOptions) (s : Nat) :
    ∀ k, delayFrom (fun i => opts (i + 1)) (s * (opts 0).factor) k = delayFrom opts s (k + 1)
  | 0 => rfl
  | k + 1 => by
    show delayFrom (fun i => opts (i + 1)) (s * (opts 0).factor) k * (opts (k + 1 + 1)).factor
        = delayFrom opts s (k + 1) * (opts (k + 1 + 1)).factor
    rw [delayFrom_shift opts s k]

lemma delayFrom_sleep (opts : Nat → ModelErrorRetryOptions) :
    ∀ k, delayFrom (fun i => opts (i + 1)) ((opts 0).sleep) k = delayAt opts (k + 1)
  | 0 => rfl
  | k + 1 => by
    show delayFrom (fun i => opts (i + 1)) ((opts 0).sleep) k * (opts (k + 1 + 1)).factor
        = delayAt opts (k + 1) * (opts (k + 1 + 1)).factor
    rw [delayFrom_sleep opts k]

/-- Core loop lemma: from an intermediate state with `a` attempts recorded and a
previous computed delay `s`, if every invocation keeps failing retryably with
options `opts k` on the k-th further failure, and the budget first runs out at
failure `j`, the loop logs and sleeps the compounded delays and gives up. -/
lemma withRetryableBackOffAux_exhaust {O : Type} :
    ∀ (j : Nat) (ms : Nat → String) (opts : Nat → ModelErrorRetryOptions)
      (rid : Nat → Option String) (fuel a s : Nat),
      j + 1 ≤ fuel →
      (∀ k, k < j → a + 1 + k ≤ (opts k).retries) →
      (opts j).retries < a + 1 + j →
      withRetryableBackOffAux (O := O) fuel
          (fun i => .error (.model ⟨ms i, some (opts i), rid i⟩)) a (some s)
        = some ⟨.error (.msg (exhaustMsg (opts j).retries ⟨ms j, some (opts j), rid j⟩)),
                (List.range (j + 1)).flatMap
                  (fun k => [.log (ms k) (delayFrom opts s k) (a + 1 + k),
                             .sleep (delayFrom opts s k)]),
                (rid j).map (fun id => (id, ms j)),
                j + 1⟩ := by
  intro j
  induction j with
  | zero =>
    intro ms opts rid fuel a s hfuel h2 h3
    cases fuel with
    | zero => omega
    | succ fuel' =>
      simp only [withRetryableBackOffAux]
      rw [if_pos (show (opts 0).retries < a + 1 by omega)]
      rw [range_succ_flatMap]
      simp [delayFrom]
  | succ j ih =>
    intro ms opts rid fuel a s hfuel h2 h3
    cases fuel with
    | zero => omega
    | succ fuel' =>
      have hcont : ¬ ((opts 0).retries < a + 1) := by
        have h0 := h2 0 (Nat.succ_pos j)
        omega
      have ihx := ih (fun i => ms (i + 1)) (fun i => opts (i + 1)) (fun i => rid (i + 1))
          fuel' (a + 1) (s * (opts 0).factor)
          (by omega)
          (fun k hk => by
            have hx := h2 (k + 1) (by omega)
            show a + 1 + 1 + k ≤ (opts (k + 1)).retries
            omega)
          (by
            show (opts (j + 1)).retries < a + 1 + 1 + j
            omega)
      simp only [withRetryableBackOffAux]
      rw [if_neg hcont]
      rw [ihx]
      conv_rhs => rw [range_succ_flatMap]
      have hfun : (fun k => [RetryEvent.log (ms (k + 1))
                    (delayFrom (fun i => opts (i + 1)) (s * (opts 0).factor) k)
                    (a + 1 + 1 + k),
                   RetryEvent.sleep
                    (delayFrom (fun i => opts (i + 1)) (s * (opts 0).factor) k)])
          = (fun k => [RetryEvent.log (ms (k + 1)) (delayFrom opts s (k + 1))
                        (a + 1 + (k + 1)),
                       RetryEvent.sleep (delayFrom opts s (k + 1))]) := by
        funext k
        rw [delayFrom_shift, show a + 1 + 1 + k = a + 1 + (k + 1) from by omega]
      simp [hfun, delayFrom]

/-- Top-level exhaustion lemma: if every invocation fails retryably with options
`opts k` on the k-th failure, and `N` is the failure at which the budget first
runs out, the whole run logs and sleeps the delays `delayAt opts k` at attempt
numbers `k + 1`, invokes the operation exactly `N + 1` times, emits the terminal
diagnostic, and returns the exhaustion error built from the last error. -/
lemma withRetryableBackOff_exhaust {O : Type}
    (ms : Nat → String) (opts : Nat → ModelErrorRetryOptions) (rid : Nat → Option String)
    (N fuel : Nat) (hfuel : N + 1 ≤ fuel)
    (hgo : ∀ k, k < N → k + 1 ≤ (opts k).retries)
    (hstop : (opts N).retries ≤ N) :
    withRetryableBackOff (O := O)
        (fun i => .error (.model ⟨ms i, some (opts i), rid i⟩)) fuel
      = some ⟨.error (.msg (exhaustMsg (opts N).retries ⟨ms N, some (opts N), rid N⟩)),
              (List.range (N + 1)).flatMap
                (fun k => [.log (ms k) (delayAt opts k) (k + 1),
                           .sleep (delayAt opts k)]),
              (rid N).map (fun id => (id, ms N)),
              N + 1⟩ := by
  cases fuel with
  | zero => omega
  | succ fuel' =>
    unfold withRetryableBackOff
    simp only [withRetryableBackOffAux]
    cases N with
    | zero =>
      rw [if_pos (show (opts 0).retries < 0 + 1 by omega)]
      rw [range_succ_flatMap]
      simp [delayAt]
    | succ N' =>
      rw [if_neg (show ¬ ((opts 0).retries < 0 + 1) by
        have := hgo 0 (Nat.succ_pos N'); omega)]
      have ihx := withRetryableBackOffAux_exhaust (O := O) N'
          (fun i => ms (i + 1)) (fun i => opts (i + 1)) (fun i => rid (i + 1))
          fuel' 1 ((opts 0).sleep)
          (by omega)
          (fun k hk => by
            have hx := hgo (k + 1) (by omega)
            show 1 + 1 + k ≤ (opts (k + 1)).retries
            omega)
          (by
            show (opts (N' + 1)).retries < 1 + 1 + N'
            omega)
      rw [ihx]
      conv_rhs => rw [range_succ_flatMap]
      have hfun : (fun k => [RetryEvent.log (ms (k + 1))
                    (delayFrom (fun i => opts (i + 1)) ((opts 0).sleep) k)
                    (1 + 1 + k),
                   RetryEvent.sleep
                    (delayFrom (fun i => opts (i + 1)) ((opts 0).sleep) k)])
          = (fun k => [RetryEvent.log (ms (k + 1)) (delayAt opts (k + 1)) (k + 1 + 1),
                       RetryEvent.sleep (delayAt opts (k + 1))]) := by
        funext k
        rw [delayFrom_sleep, show 1 + 1 + k = k + 1 + 1 from by omega]
      simp [hfun, delayAt]

lemma delayAt_const (d f r : Nat) :
    ∀ k, delayAt (fun _ => (⟨d, f, r⟩ : ModelErrorRetryOptions)) k = d * f ^ k
  | 0 => by simp [delayAt]
  | k + 1 => by
    show delayAt (fun _ => (⟨d, f, r⟩ : ModelErrorRetryOptions)) k * f = d * f ^ (k + 1)
    rw [delayAt_const d f r k, pow_succ, mul_assoc]

lemma delayAt_const_factor_zero (d r : Nat) :
    ∀ k, delayAt (fun _ => (⟨d, 0, r⟩ : ModelErrorRetryOptions)) k
      = if k = 0 then d else 0
  | 0 => by simp [delayAt]
  | k + 1 => by
    show delayAt (fun _ => (⟨d, 0, r⟩ : ModelErrorRetryOptions)) k * 0
        = if k + 1 = 0 then d else 0
    simp

lemma exhaustMsg_contains_budget (r : Nat) (e : ModelError) :
    containsSubstr (exhaustMsg r e) (toString r) :=
  ⟨"Too many retries (", "): " ++ e.display, by
    simp [exhaustMsg, String.append_assoc]⟩

lemma exhaustMsg_contains_display (r : Nat) (e : ModelError) :
    containsSubstr (exhaustMsg r e) e.display :=
  ⟨"Too many retries (" ++ toString r ++ "): ", "", by
    simp [exhaustMsg, String.append_assoc, String.append_empty]⟩

lemma display_contains_flag_retryable (e : ModelError) (h : e.retryable.isSome = true) :
    containsSubstr e.display "retryable=true" :=
  ⟨"[model_error(", ")] " ++ e.message, by
    have h1 : e.display = "[model_error(retryable=true)] " ++ e.message := by
      simp [ModelError.display, h]
    rw [h1, ← String.append_assoc ("[model_error(" ++ "retryable=true") ")] " e.message]
    exact congrArg (· ++ e.message) (by decide)⟩

lemma display_contains_message (e : ModelError) :
    containsSubstr e.display e.message :=
  ⟨"[model_error(retryable=" ++ (if e.retryable.isSome then "true" else "false") ++ ")] ", "", by
    simp [ModelError.display, String.append_assoc, String.append_empty]⟩

/-- C1: with base delay `d`, factor `f ≥ 1`, budget `r`, and an operation that
always fails with the same retryable classified error, the observation hook is
invoked with the delay sequence `d * f ^ k` and attempt numbers `k + 1` for
`k = 0, …, r` (length exactly `r + 1`), each hook invocation is immediately
followed by a sleep of the same delay — including before the terminal give-up —
and the call returns the exhaustion error after exactly `r + 1` invocations of
the operation. -/
theorem retry_always_failing_geometric_exhaustion {O : Type}
    (d f r : Nat) (m : String) (rid : Option String) (fuel : Nat)
    (hf : 1 ≤ f) (hfuel : r + 1 ≤ fuel) :
    withRetryableBackOff (O := O)
        (fun _ => .error (.model ⟨m, some ⟨d, f, r⟩, rid⟩)) fuel
      = some ⟨.error (.msg (exhaustMsg r ⟨m, some ⟨d, f, r⟩, rid⟩)),
              (List.range (r + 1)).flatMap
                (fun k => [.log m (d * f ^ k) (k + 1), .sleep (d * f ^ k)]),
              rid.map (fun id => (id, m)),
              r + 1⟩ := by
  have h := withRetryableBackOff_exhaust (O := O) (fun _ => m)
      (fun _ => (⟨d, f, r⟩ : ModelErrorRetryOptions)) (fun _ => rid) r fuel hfuel
      (fun k hk => by show k + 1 ≤ r; omega)
      (by show r ≤ r; exact le_refl r)
  simp only [delayAt_const] at h
  exact h

/-- C1 witness: the spec's concrete scenario — base delay 100, factor 2,
budget 3 — gives hook delays 100, 200, 400, 800 at attempts 1..4 and the
exhaustion error after 4 invocations. -/
theorem retry_always_failing_geometric_exhaustion_witness :
    withRetryableBackOff (O := Nat)
        (fun _ => .error (.model ⟨"boom", some ⟨100, 2, 3⟩, some "req1"⟩)) 4
      = some ⟨.error (.msg (exhaustMsg 3 ⟨"boom", some ⟨100, 2, 3⟩, some "req1"⟩)),
              (List.range 4).flatMap
                (fun k => [.log "boom" (100 * 2 ^ k) (k + 1), .sleep (100 * 2 ^ k)]),
              some ("req1", "boom"),
              4⟩ :=
  retry_always_failing_geometric_exhaustion 100 2 3 "boom" (some "req1") 4
    (by decide) (by decide)

/-- C8: every iteration of the loop uses the retry options carried by the most
recent failure's classified error: the first failure's base delay seeds the
delay (`delayAt opts 0 = (opts 0).sleep`), every subsequent delay is the
previous computed delay times the current error's factor
(`delayAt opts (k+1) = delayAt opts k * (opts (k+1)).factor`), and the run
terminates at the first failure `N` whose own `retries` field is exceeded by
the cumulative attempt count, returning the exhaustion error built from that
most recent error's options and rendering. -/
theorem retry_options_tracked_per_failure {O : Type}
    (ms : Nat → String) (opts : Nat → ModelErrorRetryOptions) (rid : Nat → Option String)
    (N fuel : Nat) (hfuel : N + 1 ≤ fuel)
    (hgo : ∀ k, k < N → k + 1 ≤ (opts k).retries)
    (hstop : (opts N).retries ≤ N) :
    withRetryableBackOff (O := O)
        (fun i => .error (.model ⟨ms i, some (opts i), rid i⟩)) fuel
      = some ⟨.error (.msg (exhaustMsg (opts N).retries ⟨ms N, some (opts N), rid N⟩)),
              (List.range (N + 1)).flatMap
                (fun k => [.log (ms k) (delayAt opts k) (k + 1),
                           .sleep (delayAt opts k)]),
              (rid N).map (fun id => (id, ms N)),
              N + 1⟩
    ∧ delayAt opts 0 = (opts 0).sleep
    ∧ (∀ k, delayAt opts (k + 1) = delayAt opts k * (opts (k + 1)).factor) :=
  ⟨withRetryableBackOff_exhaust ms opts rid N fuel hfuel hgo hstop, rfl, fun _ => rfl⟩

/-- C8 witness: two failures with different options — the first carries base
delay 5, factor 3, budget 2; the second carries base delay 100, factor 2,
budget 1. The second delay is 10 (previous delay 5 times the current factor 2,
not the stale factor 3), and the run stops after 2 invocations because the
current error's budget 1 is exceeded, even though the first error's budget 2
is not. -/
theorem retry_options_tracked_per_failure_witness :
    withRetryableBackOff (O := Nat)
        (fun i => .error (.model ⟨(if i = 0 then "a" else "b"),
          some (if i = 0 then (⟨5, 3, 2⟩ : ModelErrorRetryOptions) else ⟨100, 2, 1⟩),
          none⟩)) 10
      = some ⟨.error (.msg (exhaustMsg 1 ⟨"b", some ⟨100, 2, 1⟩, none⟩)),
              (List.range 2).flatMap
                (fun k => [.log (if k = 0 then "a" else "b")
                            (delayAt (fun i =>
                              if i = 0 then (⟨5, 3, 2⟩ : ModelErrorRetryOptions)
                              else ⟨100, 2, 1⟩) k) (k + 1),
                           .sleep (delayAt (fun i =>
                              if i = 0 then (⟨5, 3, 2⟩ : ModelErrorRetryOptions)
                              else ⟨100, 2, 1⟩) k)]),
              none,
              2⟩ :=
  (retry_options_tracked_per_failure (fun i => if i = 0 then "a" else "b")
      (fun i => if i = 0 then (⟨5, 3, 2⟩ : ModelErrorRetryOptions) else ⟨100, 2, 1⟩)
      (fun _ => none) 1 10 (by decide)
      (fun k hk => by
        have hk0 : k = 0 := by omega
        subst hk0; decide)
      (by decide)).1

/-- C2 counterexample: with budget 0 and an always-retryable-failing operation,
the operation is invoked exactly once in total, not twice as the claim states. -/
theorem budget_zero_two_invocations_counterexample :
    (withRetryableBackOff (O := Nat)
        (fun _ => .error (.model ⟨"boom", some ⟨7, 2, 0⟩, none⟩)) 5).map RunResult.calls
      = some 1
    ∧ (withRetryableBackOff (O := Nat)
        (fun _ => .error (.model ⟨"boom", some ⟨7, 2, 0⟩, none⟩)) 5).map RunResult.calls
      ≠ some 2 := by
  constructor
  · rfl
  · decide

/-- C2 amended: with budget `r = 0` and an operation that always fails with a
retryable classified error, the driver gives up after the single initial
invocation — the operation runs exactly once, the hook is invoked once (attempt
number 1, base delay), one sleep of the base delay occurs, and the exhaustion
error is returned. -/
theorem budget_zero_single_invocation {O : Type}
    (d f : Nat) (m : String) (rid : Option String) (fuel : Nat) (hfuel : 1 ≤ fuel) :
    withRetryableBackOff (O := O)
        (fun _ => .error (.model ⟨m, some ⟨d, f, 0⟩, rid⟩)) fuel
      = some ⟨.error (.msg (exhaustMsg 0 ⟨m, some ⟨d, f, 0⟩, rid⟩)),
              [.log m d 1, .sleep d],
              rid.map (fun id => (id, m)),
              1⟩ := by
  have h := withRetryableBackOff_exhaust (O := O) (fun _ => m)
      (fun _ => (⟨d, f, 0⟩ : ModelErrorRetryOptions)) (fun _ => rid) 0 fuel hfuel
      (fun k hk => by omega)
      (by show (0 : Nat) ≤ 0; exact le_refl 0)
  rw [h, range_succ_flatMap]
  simp [delayAt]

/-- C2 amended witness: base delay 7, factor 2, budget 0 — one invocation, one
hook call at attempt 1 with delay 7, one sleep, then the exhaustion error. -/
theorem budget_zero_single_invocation_witness :
    withRetryableBackOff (O := Nat)
        (fun _ => .error (.model ⟨"boom", some ⟨7, 2, 0⟩, none⟩)) 5
      = some ⟨.error (.msg (exhaustMsg 0 ⟨"boom", some ⟨7, 2, 0⟩, none⟩)),
              [.log "boom" 7 1, .sleep 7],
              none,
              1⟩ :=
  budget_zero_single_invocation 7 2 "boom" none 5 (by decide)

/-- C9: a classified error carrying factor 0 is accepted (nothing enforces the
documented factor-at-least-1 invariant): the first retry sleeps the base delay
`d`, every subsequent computed delay is `d * 0 = 0`, and the driver still
terminates with the exhaustion error after exactly `r + 1` invocations of the
always-failing operation. -/
theorem factor_zero_accepted_and_terminates {O : Type}
    (d r : Nat) (m : String) (rid : Option String) (fuel : Nat)
    (hfuel : r + 1 ≤ fuel) :
    withRetryableBackOff (O := O)
        (fun _ => .error (.model ⟨m, some ⟨d, 0, r⟩, rid⟩)) fuel
      = some ⟨.error (.msg (exhaustMsg r ⟨m, some ⟨d, 0, r⟩, rid⟩)),
              (List.range (r + 1)).flatMap
                (fun k => [.log m (if k = 0 then d else 0) (k + 1),
                           .sleep (if k = 0 then d else 0)]),
              rid.map (fun id => (id, m)),
              r + 1⟩ := by
  have h := withRetryableBackOff_exhaust (O := O) (fun _ => m)
      (fun _ => (⟨d, 0, r⟩ : ModelErrorRetryOptions)) (fun _ => rid) r fuel hfuel
      (fun k hk => by show k + 1 ≤ r; omega)
      (by show r ≤ r; exact le_refl r)
  simp only [delayAt_const_factor_zero] at h
  exact h

/-- C9 witness: base delay 9, factor 0, budget 2 — delays 9, 0, 0 and the
exhaustion error after 3 invocations. -/
theorem factor_zero_accepted_and_terminates_witness :
    withRetryableBackOff (O := Nat)
        (fun _ => .error (.model ⟨"boom", some ⟨9, 0, 2⟩, none⟩)) 3
      = some ⟨.error (.msg (exhaustMsg 2 ⟨"boom", some ⟨9, 0, 2⟩, none⟩)),
              (List.range 3).flatMap
                (fun k => [.log "boom" (if k = 0 then 9 else 0) (k + 1),
                           .sleep (if k = 0 then 9 else 0)]),
              none,
              3⟩ :=
  factor_zero_accepted_and_terminates 9 2 "boom" none 3 (by decide)

/-- C7 counterexample: an operation that fails on its first two invocations with
retryable classified errors (whose budget is 0) and succeeds on the third does
NOT return the success value: the budget is exhausted after the very first
invocation, the hook fires once, and an exhaustion error is returned. -/
theorem two_failures_then_success_counterexample :
    withRetryableBackOff
        (fun i => if i = 0 then .error (.model ⟨"a", some ⟨5, 2, 0⟩, none⟩)
                  else if i = 1 then .error (.model ⟨"a", some ⟨5, 2, 0⟩, none⟩)
                  else .ok (42 : Nat)) 10
      = some ⟨.error (.msg (exhaustMsg 0 ⟨"a", some ⟨5, 2, 0⟩, none⟩)),
              [.log "a" 5 1, .sleep 5],
              none,
              1⟩
    ∧ (withRetryableBackOff
        (fun i => if i = 0 then .error (.model ⟨"a", some ⟨5, 2, 0⟩, none⟩)
                  else if i = 1 then .error (.model ⟨"a", some ⟨5, 2, 0⟩, none⟩)
                  else .ok (42 : Nat)) 10).map RunResult.result
      ≠ some (.ok 42) := by
  constructor
  · rfl
  · decide

/-- C7 amended: an operation that fails with retryable classified errors on its
first two invocations and succeeds on the third returns the third invocation's
success value unchanged, with the observation hook invoked exactly twice (at
attempt numbers 1 and 2) — provided the errors' own retry budgets allow both
retries (the first error's budget is at least 1 and the second's at least 2). -/
theorem two_failures_then_success {O : Type}
    (op : Nat → Except AnyhowError O) (v : O)
    (e1 e2 : ModelError) (r1 r2 : ModelErrorRetryOptions)
    (h0 : op 0 = .error (.model e1)) (h1 : op 1 = .error (.model e2))
    (h2 : op 2 = .ok v)
    (hr1 : e1.retryable = some r1) (hr2 : e2.retryable = some r2)
    (hb1 : 1 ≤ r1.retries) (hb2 : 2 ≤ r2.retries)
    (fuel : Nat) (hfuel : 3 ≤ fuel) :
    withRetryableBackOff op fuel
      = some ⟨.ok v,
              [.log e1.message r1.sleep 1, .sleep r1.sleep,
               .log e2.message (r1.sleep * r2.factor) 2,
               .sleep (r1.sleep * r2.factor)],
              none, 3⟩ := by
  obtain ⟨fl, rfl⟩ : ∃ fl, fuel = fl + 3 := ⟨fuel - 3, by omega⟩
  unfold withRetryableBackOff
  simp only [withRetryableBackOffAux, h0, h1, h2, hr1, hr2]
  rw [if_neg (show ¬ (0 + 1 > r1.retries) by omega),
      if_neg (show ¬ (1 + 1 > r2.retries) by omega)]

/-- C7 amended witness: fails with budget-3 retryable errors on invocations 1
and 2, succeeds with value 42 on invocation 3: the result is 42 with hook calls
at attempts 1 and 2 and delays 5 and 10. -/
theorem two_failures_then_success_witness :
    withRetryableBackOff
        (fun i => if i = 0 then .error (.model ⟨"a", some ⟨5, 2, 3⟩, none⟩)
                  else if i = 1 then .error (.model ⟨"b", some ⟨7, 2, 3⟩, none⟩)
                  else .ok (42 : Nat)) 9
      = some ⟨.ok 42,
              [.log "a" 5 1, .sleep 5, .log "b" 10 2, .sleep 10],
              none, 3⟩ :=
  two_failures_then_success
    (fun i => if i = 0 then .error (.model ⟨"a", some ⟨5, 2, 3⟩, none⟩)
              else if i = 1 then .error (.model ⟨"b", some ⟨7, 2, 3⟩, none⟩)
              else .ok (42 : Nat)) 42
    ⟨"a", some ⟨5, 2, 3⟩, none⟩ ⟨"b", some ⟨7, 2, 3⟩, none⟩ ⟨5, 2, 3⟩ ⟨7, 2, 3⟩
    rfl rfl rfl rfl rfl (by decide) (by decide) 9 (by decide)

/-- C4: when the first outcome is a failure that is not retried, the driver
returns immediately after one invocation, with no hook invocation and no sleep:
a classified error with `retryable = None` is returned as a fresh wrapping
error carrying its rendered message, while a failure that is not a classified
error is propagated unchanged. -/
theorem non_retried_failure_returns_immediately {O : Type}
    (op : Nat → Except AnyhowError O) (fuel : Nat) (hfuel : 1 ≤ fuel) :
    (∀ err : ModelError, err.retryable = none → op 0 = .error (.model err) →
        withRetryableBackOff op fuel
          = some ⟨.error (.msg err.display), [], none, 1⟩)
    ∧ (∀ s : String, op 0 = .error (.msg s) →
        withRetryableBackOff op fuel
          = some ⟨.error (.msg s), [], none, 1⟩) := by
  obtain ⟨fl, rfl⟩ : ∃ fl, fuel = fl + 1 := ⟨fuel - 1, by omega⟩
  constructor
  · intro err hnone hop
    unfold withRetryableBackOff
    simp only [withRetryableBackOffAux, hop, hnone]
  · intro s hop
    unfold withRetryableBackOff
    simp only [withRetryableBackOffAux, hop]

/-- C4 witness: a fatal classified error is wrapped into its rendering; an
unclassified error comes back as the very same error value; in both cases one
invocation, no events. -/
theorem non_retried_failure_returns_immediately_witness :
    withRetryableBackOff (O := Nat)
        (fun _ => .error (.model ⟨"fatal", none, some "id7"⟩)) 3
      = some ⟨.error (.msg (ModelError.display ⟨"fatal", none, some "id7"⟩)), [], none, 1⟩
    ∧ withRetryableBackOff (O := Nat) (fun _ => .error (.msg "io error")) 3
      = some ⟨.error (.msg "io error"), [], none, 1⟩ :=
  ⟨(non_retried_failure_returns_immediately
      (fun _ => .error (.model ⟨"fatal", none, some "id7"⟩)) 3 (by decide)).1
      ⟨"fatal", none, some "id7"⟩ rfl rfl,
   (non_retried_failure_returns_immediately
      (fun _ => .error (.msg "io error")) 3 (by decide)).2 "io error" rfl⟩

/-- C5: on exhaustion, the returned error's message states the configured retry
budget and contains the classified error's rendering, and that rendering (the
`Display` of `ModelError`) contains both the retryable flag and the message
text. -/
theorem exhaustion_error_message_contract {O : Type}
    (d f r : Nat) (m : String) (rid : Option String) (fuel : Nat)
    (hfuel : r + 1 ≤ fuel) :
    ∃ M : String,
      (withRetryableBackOff (O := O)
          (fun _ => .error (.model ⟨m, some ⟨d, f, r⟩, rid⟩)) fuel).map RunResult.result
        = some (.error (.msg M))
      ∧ containsSubstr M (toString r)
      ∧ containsSubstr M (ModelError.display ⟨m, some ⟨d, f, r⟩, rid⟩)
      ∧ containsSubstr (ModelError.display ⟨m, some ⟨d, f, r⟩, rid⟩) "retryable=true"
      ∧ containsSubstr (ModelError.display ⟨m, some ⟨d, f, r⟩, rid⟩) m := by
  refine ⟨exhaustMsg r ⟨m, some ⟨d, f, r⟩, rid⟩, ?_, ?_, ?_, ?_, ?_⟩
  · rw [withRetryableBackOff_exhaust (O := O) (fun _ => m)
        (fun _ => (⟨d, f, r⟩ : ModelErrorRetryOptions)) (fun _ => rid) r fuel hfuel
        (fun k hk => by show k + 1 ≤ r; omega)
        (by show r ≤ r; exact le_refl r)]
    rfl
  · exact exhaustMsg_contains_budget r _
  · exact exhaustMsg_contains_display r _
  · exact display_contains_flag_retryable _ rfl
  · exact display_contains_message ⟨m, some ⟨d, f, r⟩, rid⟩

/-- C5 witness: the contract instantiated at base delay 100, factor 2,
budget 3, message "boom". -/
theorem exhaustion_error_message_contract_witness :
    ∃ M : String,
      (withRetryableBackOff (O := Nat)
          (fun _ => .error (.model ⟨"boom", some ⟨100, 2, 3⟩, none⟩)) 4).map RunResult.result
        = some (.error (.msg M))
      ∧ containsSubstr M (toString 3)
      ∧ containsSubstr M (ModelError.display ⟨"boom", some ⟨100, 2, 3⟩, none⟩)
      ∧ containsSubstr (ModelError.display ⟨"boom", some ⟨100, 2, 3⟩, none⟩) "retryable=true"
      ∧ containsSubstr (ModelError.display ⟨"boom", some ⟨100, 2, 3⟩, none⟩) "boom" :=
  exhaustion_error_message_contract 100 2 3 "boom" none 4 (by decide)

/-- C6: for every variant, parsing its display form gives the variant back, and
parsing any string outside the canonical seven-string set returns the parse
error (it never succeeds). -/
theorem providerID_parse_display_roundtrip :
    (∀ v : ProviderID, ProviderID.fromStr (ProviderID.display v) = .ok v)
    ∧ (∀ s : String, s ∉ canonicalProviderStrings →
        ProviderID.fromStr s
          = .error ⟨"Unknown provider ID (possible values: openai, cohere, ai21, azure_openai, mistral)"⟩) := by
  constructor
  · intro v
    cases v <;> decide
  · intro s hs
    simp only [canonicalProviderStrings, List.mem_cons, List.not_mem_nil, or_false,
      not_or] at hs
    obtain ⟨n1, n2, n3, n4, n5, n6, n7⟩ := hs
    simp [ProviderID.fromStr, n1, n2, n3, n4, n5, n6, n7]

/-- C6 witness: round trip at one variant, and the parse error at a string
outside the canonical set. -/
theorem providerID_parse_display_roundtrip_witness :
    ProviderID.fromStr (ProviderID.display .GoogleAiStudio) = .ok .GoogleAiStudio
    ∧ ProviderID.fromStr "not_a_provider"
        = .error ⟨"Unknown provider ID (possible values: openai, cohere, ai21, azure_openai, mistral)"⟩ :=
  ⟨providerID_parse_display_roundtrip.1 .GoogleAiStudio,
   providerID_parse_display_roundtrip.2 "not_a_provider" (by decide)⟩

/-- C3: evaluating the parser at a failing input shows the bug — the parse
error's message lists only five of the seven accepted values, omitting
`anthropic` and `google_ai_studio`, both of which the same function accepts. -/
theorem parse_error_message_omits_accepted_values :
    ProviderID.fromStr "foo"
      = .error ⟨"Unknown provider ID (possible values: openai, cohere, ai21, azure_openai, mistral)"⟩
    ∧ ProviderID.fromStr "anthropic" = .ok .Anthropic
    ∧ ProviderID.fromStr "google_ai_studio" = .ok .GoogleAiStudio := by
  refine ⟨by decide, by decide, by decide⟩

/-- C10: the serde-serialized string of every variant equals its display form,
and serde deserialization succeeds on exactly the strings the string parser
accepts, mapping each to the same variant. -/
theorem serde_agrees_with_display_fromStr :
    (∀ v : ProviderID, ProviderID.serdeName v = ProviderID.display v)
    ∧ (∀ s : String, ∀ v : ProviderID,
        ProviderID.serdeDeserialize s = .ok v ↔ ProviderID.fromStr s = .ok v) := by
  constructor
  · intro v
    cases v <;> rfl
  · intro s v
    unfold ProviderID.serdeDeserialize ProviderID.fromStr
    split_ifs <;> simp
